import Mathlib

/-!
# AgentShield — verification of the scoring core

Shallow embedding of the scoring logic of the AgentShield repository
(`src/scanners/code-scanner.ts`, `src/scanners/tx-validator.ts`,
`src/scanners/address-checker.ts`, the agent scorer, and
`src/data/scam-addresses.ts`), together with theorems settling the
specification claims about them.

Modelling conventions:
* JavaScript numbers are modelled as `ℚ` (all weights and scores in the
  source are small integers or tenths, exactly representable); `Math.round`
  is `jsRound q = ⌊q + 1/2⌋` and `Math.min`/`Math.max` are `min`/`max`.
* Regular-expression matching (the detection engine) is external to the
  aggregation logic verified here: the aggregation functions take the
  detection list (resp. boolean pattern-test outcomes) as input, exactly
  the data the source aggregation code consumes.  The entropy condition
  `entropy > 5.5 && code.length > 500` of `scanCode` is likewise a boolean
  input.
* The `@solana/web3.js` `PublicKey` constructor (address format
  validation) is an external dependency; validity is a boolean input.
* ISO timestamp strings (`scannedAt`, `checkedAt`, `validatedAt`,
  `firstSeen`) carry no scoring content; `firstSeen` is modelled as the
  underlying millisecond timestamp and the pure metadata timestamps are
  omitted from the result records.
-/

/-- Detection severity (`Detection['severity']` in `code-scanner.ts`,
also the severity of a `ScamEntry`). -/
inductive Severity
  | critical
  | high
  | medium
  | low
  deriving DecidableEq, Repr

/-- Detection category (`Detection['category']` in `code-scanner.ts`). -/
inductive Category
  | shell_exec
  | network_exfil
  | wallet_drain
  | prompt_injection
  | obfuscation
  | base64_payload
  | hidden_instruction
  | data_access
  | crypto_theft
  deriving DecidableEq, Repr

/-- A detection rule (`PatternRule` in `code-scanner.ts`).  The `regex`
field is the external matcher and is not part of the aggregation logic;
the remaining fields are carried verbatim. -/
structure PatternRule where
  category : Category
  severity : Severity
  description : String
  confidence : ℕ
  weight : ℕ
  deriving DecidableEq, Repr

/-- The `PATTERNS` rule table of `code-scanner.ts`, in source order,
with each rule's category, severity, description, confidence and weight. -/
def PATTERNS : List PatternRule := [
  -- Shell Execution
  ⟨.shell_exec, .critical, "Imports child_process module — can execute arbitrary system commands", 95, 25⟩,
  ⟨.shell_exec, .critical, "ES module import of child_process", 95, 25⟩,
  ⟨.shell_exec, .critical, "Direct shell command execution function call", 90, 20⟩,
  ⟨.shell_exec, .critical, "child_process method invocation", 95, 25⟩,
  ⟨.shell_exec, .high, "Process termination — could be used to crash host", 70, 10⟩,
  ⟨.shell_exec, .medium, "Imports sensitive Node.js core module", 60, 8⟩,
  ⟨.shell_exec, .high, "Third-party shell execution library", 85, 15⟩,
  -- Network Exfiltration
  ⟨.network_exfil, .high, "HTTP request to external domain — potential data exfiltration", 60, 10⟩,
  ⟨.network_exfil, .medium, "HTTP client library — review outbound connections", 40, 5⟩,
  ⟨.network_exfil, .high, "WebSocket connection — could stream data to external server", 70, 12⟩,
  ⟨.network_exfil, .high, "Low-level network connection — bypasses HTTP monitoring", 80, 15⟩,
  ⟨.network_exfil, .critical, "Sending sensitive data over network connection", 85, 25⟩,
  ⟨.network_exfil, .critical, "Webhook URL configured — likely exfiltration endpoint", 80, 20⟩,
  ⟨.network_exfil, .critical, "Discord webhook — common exfiltration channel for stolen data", 90, 25⟩,
  ⟨.network_exfil, .critical, "Telegram bot API — common exfiltration channel", 90, 25⟩,
  -- Wallet/Key Access
  ⟨.wallet_drain, .critical, "Accesses private key — potential wallet theft", 90, 25⟩,
  ⟨.wallet_drain, .critical, "Accesses secret key or keypair", 85, 20⟩,
  ⟨.wallet_drain, .critical, "Accesses mnemonic/seed phrase — wallet recovery theft", 95, 30⟩,
  ⟨.wallet_drain, .critical, "Reconstructing Solana Keypair from secret key bytes", 95, 30⟩,
  ⟨.wallet_drain, .critical, "Reconstructing Solana Keypair from seed", 95, 30⟩,
  ⟨.wallet_drain, .high, "Base58 decoding — could be decoding wallet keys", 60, 10⟩,
  ⟨.wallet_drain, .high, "Reading sensitive environment variables (keys/secrets)", 75, 15⟩,
  ⟨.wallet_drain, .high, "Transaction/message signing — verify authorization", 50, 8⟩,
  ⟨.wallet_drain, .high, "SOL transfer instruction — verify recipient is authorized", 50, 8⟩,
  ⟨.wallet_drain, .medium, "Token/SOL transfer with amount — review authorization", 40, 6⟩,
  ⟨.wallet_drain, .critical, "Solana CLI key generation or config modification", 85, 20⟩,
  -- Prompt Injection
  ⟨.prompt_injection, .critical, "System prompt override attempt", 90, 25⟩,
  ⟨.prompt_injection, .critical, "Instruction override marker detected", 85, 20⟩,
  ⟨.prompt_injection, .critical, "Prompt injection — attempts to override previous instructions", 95, 30⟩,
  ⟨.prompt_injection, .critical, "Prompt injection — attempts to clear agent instructions", 90, 25⟩,
  ⟨.prompt_injection, .critical, "Attempts to bypass safety guardrails", 90, 25⟩,
  ⟨.prompt_injection, .critical, "Tool invocation injection — attempts to make agent call tools", 95, 30⟩,
  ⟨.prompt_injection, .critical, "Function/tool call injection attempt", 90, 25⟩,
  ⟨.prompt_injection, .critical, "LLM special token injection — attempts to inject control tokens", 95, 30⟩,
  ⟨.prompt_injection, .high, "Role reassignment attempt — jailbreak pattern", 80, 15⟩,
  ⟨.prompt_injection, .high, "DAN (Do Anything Now) jailbreak pattern", 85, 18⟩,
  -- Obfuscation / base64
  ⟨.obfuscation, .critical, "eval() — executes arbitrary code strings", 90, 25⟩,
  ⟨.obfuscation, .critical, "Function constructor — creates function from string (like eval)", 90, 25⟩,
  ⟨.obfuscation, .high, "setTimeout with string argument — executes as eval", 80, 15⟩,
  ⟨.obfuscation, .high, "setInterval with string argument — executes as eval", 80, 15⟩,
  ⟨.base64_payload, .high, "Base64 encoding/decoding of substantial payload", 75, 15⟩,
  ⟨.base64_payload, .high, "Buffer.from with base64 — decoding hidden payload", 80, 18⟩,
  ⟨.obfuscation, .high, "Hex-escaped string sequence — obfuscated code", 75, 15⟩,
  ⟨.obfuscation, .high, "Unicode-escaped string sequence — obfuscated code", 75, 15⟩,
  ⟨.obfuscation, .high, "Hex property access — obfuscated member access", 80, 15⟩,
  ⟨.obfuscation, .high, "String.fromCharCode with multiple codes — building hidden strings", 80, 18⟩,
  ⟨.obfuscation, .high, "JavaScript obfuscator variable naming pattern", 85, 15⟩,
  -- Hidden Instructions
  ⟨.hidden_instruction, .high, "HTML comment containing suspicious keywords", 70, 12⟩,
  ⟨.hidden_instruction, .medium, "Code comment containing suspicious keywords", 50, 8⟩,
  ⟨.hidden_instruction, .high, "Zero-width characters detected — possible hidden text", 85, 18⟩,
  ⟨.hidden_instruction, .high, "Braille pattern characters — possible steganographic hiding", 80, 15⟩,
  -- Data Access
  ⟨.data_access, .high, "Filesystem read operation — potential data theft", 65, 10⟩,
  ⟨.data_access, .high, "Filesystem write/delete operation — potential data destruction", 70, 12⟩,
  ⟨.data_access, .critical, "Accessing sensitive system files", 90, 25⟩,
  ⟨.crypto_theft, .critical, "Accessing Solana CLI wallet/config files", 95, 30⟩,
  ⟨.crypto_theft, .critical, "Targeting Solana wallet browser extensions", 85, 25⟩,
  ⟨.crypto_theft, .high, "Accessing browser extension data — potential wallet theft", 75, 15⟩]

/-- A single detection (`Detection` in `code-scanner.ts`).  `matchText`
is the source's `match` field (a Lean keyword). -/
structure Detection where
  pattern : String
  category : Category
  severity : Severity
  description : String
  line : Option ℕ
  matchText : String
  confidence : ℕ
  deriving DecidableEq, Repr

/-- `Math.round` of JavaScript: round half away from zero toward +∞,
i.e. `⌊q + 1/2⌋`. -/
def jsRound (q : ℚ) : ℤ := ⌊q + 1/2⌋

/-- The rule lookup of the scoring loop of `scanCode`:
`PATTERNS.find(r => r.category === d.category && r.description === d.description)`. -/
def findRule (d : Detection) : Option PatternRule :=
  PATTERNS.find? fun r => r.category == d.category && r.description == d.description

/-- The scoring loop of `scanCode` (lines 554-568): iterate the detections
in discovery order, carrying the set of categories already counted; a
found rule contributes its full weight the first time its category is
seen and 30% of its weight afterwards, and adds its category to the set. -/
def rawScoreAux : List Detection → List Category → ℚ
  | [], _ => 0
  | d :: rest, seen =>
    match findRule d with
    | some r =>
      (if d.category ∈ seen then (3 * r.weight : ℚ) / 10 else (r.weight : ℚ)) +
        rawScoreAux rest (d.category :: seen)
    | none => rawScoreAux rest seen

/-- `rawScore` accumulated by the scoring loop of `scanCode`, starting
from an empty seen-category set. -/
def rawScore (ds : List Detection) : ℚ := rawScoreAux ds []

/-- The seen-category set after the scoring loop of `scanCode` has run
over `ds` starting from `seen` (as a list queried by membership). -/
def seenAux : List Detection → List Category → List Category
  | [], seen => seen
  | d :: rest, seen =>
    match findRule d with
    | some _ => seenAux rest (d.category :: seen)
    | none => seenAux rest seen

/-- `seenCategories.has c` after the scoring loop of `scanCode`. -/
def seenHas (ds : List Detection) (c : Category) : Bool :=
  c ∈ seenAux ds []

/-- The deduplication key of `deduplicateDetections`:
`` `${d.category}:${d.description}:${d.line}` ``. -/
def dedupKey (d : Detection) : Category × String × Option ℕ :=
  (d.category, d.description, d.line)

/-- `deduplicateDetections` of `code-scanner.ts`: keep each detection
whose `(category, description, line)` key has not been seen yet. -/
def dedupAux : List Detection → List (Category × String × Option ℕ) → List Detection
  | [], _ => []
  | d :: rest, seen =>
    if dedupKey d ∈ seen then dedupAux rest seen
    else d :: dedupAux rest (dedupKey d :: seen)

/-- `deduplicateDetections(detections)` of `code-scanner.ts`. -/
def deduplicateDetections (ds : List Detection) : List Detection :=
  dedupAux ds []

/-- The `criticalCategories` set of `scanCode` (lines 577-579): the
distinct categories of critical-severity detections. -/
def criticalCategories (ds : List Detection) : List Category :=
  ((ds.filter fun d => d.severity == .critical).map Detection.category).dedup

/-- Result of the `scanCode` aggregation (the `ScanResult` fields that
carry scoring content; `summary`, `scannedAt`, `codeLength` and
`scanDurationMs` are presentation/metadata). -/
structure ScanOutcome where
  safe : Bool
  riskScore : ℤ
  detections : List Detection
  deriving Repr

/-- The risk aggregation of `scanCode` (lines 554-613), as a function of
the detection list produced by the pattern engine and of the entropy
condition `calculateEntropy(code) > 5.5 && code.length > 500`. -/
def scanAggregate (ds : List Detection) (entropyCond : Bool) : ScanOutcome :=
  let riskScore : ℤ := min 100 (jsRound (rawScore ds))
  let a1 : ℤ :=
    if 3 ≤ (criticalCategories ds).length then min 100 (riskScore + 15) else riskScore
  let a2 : ℤ :=
    if seenHas ds .network_exfil && (seenHas ds .wallet_drain || seenHas ds .crypto_theft)
    then min 100 (a1 + 20) else a1
  let a3 : ℤ :=
    if seenHas ds .shell_exec && seenHas ds .data_access then min 100 (a2 + 10) else a2
  let a4 : ℤ := if entropyCond then min 100 (a3 + 10) else a3
  let finalScore : ℤ := min 100 a4
  { safe := finalScore < 30
    riskScore := finalScore
    detections := deduplicateDetections ds }

/-! ## Scam registry (`src/data/scam-addresses.ts`) -/

/-- `ScamEntry['category']` of `scam-addresses.ts`. -/
inductive ScamCategory
  | drain
  | phishing
  | rugpull
  | mixer
  | exploit
  | honeypot
  | scam
  deriving DecidableEq, Repr

/-- Render a `ScamCategory` as its source string (used in flag text). -/
def ScamCategory.str : ScamCategory → String
  | .drain => "drain"
  | .phishing => "phishing"
  | .rugpull => "rugpull"
  | .mixer => "mixer"
  | .exploit => "exploit"
  | .honeypot => "honeypot"
  | .scam => "scam"

/-- `ScamEntry` of `scam-addresses.ts`. -/
structure ScamEntry where
  address : String
  category : ScamCategory
  description : String
  reportedAt : String
  severity : Severity
  source : Option String
  deriving DecidableEq, Repr

/-- The `SCAM_ADDRESSES` list of `scam-addresses.ts`, in source order. -/
def SCAM_ADDRESSES : List ScamEntry := [
  ⟨"Drainer1111111111111111111111111111111111111", .drain,
    "Template drainer address — placeholder for pattern testing", "2024-01-01", .critical, none⟩,
  ⟨"5wkyL3dBbKCjMiVMFzPxjW3B6Hs4tN7fMrJJoSKHAqs", .drain,
    "Rainbow Drainer — multi-chain wallet drainer operation", "2024-01-15", .critical, some "community-reports"⟩,
  ⟨"GvBfMHwLjQvcKDiGhJvTzPBUXHBGtvwMsFdYyBJdSBU9", .drain,
    "Solana drainer kit — associated with fake NFT mint sites", "2024-02-01", .critical, some "blockchain-forensics"⟩,
  ⟨"FakeDrop11111111111111111111111111111111111", .phishing,
    "Fake airdrop campaign targeting Solana users", "2024-03-01", .high, none⟩,
  ⟨"2fGfCPJn9MRy5SLBJ8Jh9gNG3dJXkSqfh4ZR8pG5SxAc", .phishing,
    "Phishing site impersonating Jupiter aggregator", "2024-06-10", .critical, some "community-reports"⟩,
  ⟨"BFXGSqcA2ZPdSjpEhBZvTLxkEfPbBMnRJv5vyhxKJCBj", .phishing,
    "Fake Phantom wallet update phishing campaign", "2024-04-15", .critical, some "solana-security"⟩,
  ⟨"BoNKEjnQcNUj6YBLKfn2tF5Xt3PQhBsEahjNHVFbRq9R", .rugpull,
    "BONK copycat rug pull token deployer", "2024-01-20", .high, some "rugcheck"⟩,
  ⟨"4k3DyjzvzaEGP2gfLjcKP4LBG9LMiTm5U5wGaX68BrJ", .rugpull,
    "Serial rug pull deployer — 12+ tokens pulled", "2024-05-01", .critical, some "community-reports"⟩,
  ⟨"FRogGRJa2B4AVqBxd3Fxv7VmRdGMuCpUXjJF7JkZzsa", .rugpull,
    "Fake FROG token rug pull", "2024-03-15", .high, some "community-reports"⟩,
  ⟨"CyZuD7RPDcrqCGbNvLCyqk6Py9cEZTKmNKujfPi3ynDd", .mixer,
    "Known Solana mixing service used for laundering stolen funds", "2024-02-20", .high, some "blockchain-forensics"⟩,
  ⟨"Htp9MGP8Tig923ZFY7Qf2zzbMUmYneFRAhSp7vSg4wxV", .exploit,
    "Mango Markets exploiter — $114M exploit October 2022", "2022-10-11", .critical, some "public-record"⟩,
  ⟨"CfVkYofcLC1iVBcYFzgdYPeiX25SVRmWvBQVHorP1A3y", .exploit,
    "Associated with Wormhole bridge exploit — February 2022", "2022-02-02", .critical, some "public-record"⟩,
  ⟨"7oPa2PHQdZmjSPqvpZN7MQxnC7Dcf3uL4oLqknGLk2S", .exploit,
    "Cashio stablecoin exploit — infinite mint bug March 2022", "2022-03-23", .critical, some "public-record"⟩,
  ⟨"HoneyPoT1111111111111111111111111111111111", .honeypot,
    "Honeypot token — buy-only, no sell possible", "2024-04-01", .high, none⟩,
  ⟨"8dHEsGnkjfEJMhRKLnap5SMdmFwABvjTwyvsSqA8bCng", .honeypot,
    "Honeypot token with hidden transfer fee and sell lock", "2024-07-01", .high, some "rugcheck"⟩,
  ⟨"ScamWaLLet111111111111111111111111111111111", .scam,
    "Generic scam wallet used in social engineering attacks", "2024-05-01", .high, none⟩,
  ⟨"3KS4bKeoLXZyFv2JDx2mNW3vL3FZSKhEy3ZdS79grJ5m", .scam,
    "Fake customer support scam — impersonating Solana Foundation", "2024-06-01", .high, some "community-reports"⟩,
  ⟨"9WzDXwBbmkg8ZTbNMqUxvQRAyrZzDsGYdLVL9zYtAWWM", .scam,
    "Advance fee scam — promises SOL doubling", "2024-08-01", .medium, some "community-reports"⟩]

/-- `buildScamLookup().get(address)`: the `Map` is built by iterating
`SCAM_ADDRESSES` with `set`, so a later entry would overwrite an earlier
one with the same address; lookup therefore finds the last matching
entry. -/
def scamLookup (address : String) : Option ScamEntry :=
  SCAM_ADDRESSES.reverse.find? fun e => e.address == address

/-! ## Transaction validator (`src/scanners/tx-validator.ts`) -/

/-- `TxValidationRequest` of `tx-validator.ts`. -/
structure TxRequest where
  destination : String
  amount : ℚ
  token : String
  context : Option String
  deriving Repr

/-- The three-way recommendation of `tx-validator.ts`. -/
inductive Recommendation
  | proceed
  | review
  | block
  deriving DecidableEq, Repr

/-- `TxValidationResult` of `tx-validator.ts` (the `details` banner and
`validatedAt` timestamp are presentation/metadata and carry no scoring
content). -/
structure TxValidationResult where
  safe : Bool
  riskScore : ℤ
  flags : List String
  recommendation : Recommendation
  deriving Repr

/-- `KNOWN_SAFE_PROGRAMS` of `tx-validator.ts`. -/
def KNOWN_SAFE_PROGRAMS : List String := [
  "11111111111111111111111111111111",
  "TokenkegQfeZyiNwAJbNbGKPFXCWuBvf9Ss623VQ5DA",
  "ATokenGPvbdGVxr1b2hvZbsiqW5xWH25efTNsLJA8knL",
  "JUP6LkbZbjS1jKKwapdHNy74zcZ3tLUZoi5QNyVTaV4",
  "whirLbMiicVdio4qvUfM5KAg6Ct8VwpYzGff3uctyCc",
  "675kPX9MHTjS2zt1qfr1NYHuzeLXfQM9H24wFSUt1Mp8",
  "metaqbxxUerdq28cj1RbAWkYQm3ybzjb6a8bt518x1s",
  "So1endDq2YkqhipRh3WViPa8hFMqFTiRnTNpGRZpubsc",
  "MangoeUkGQBJhRjjz3PMMoKTJKPrb8eaWRvRHfgjUdZ"]

/-- `SUSPICIOUS_CONTEXT_PATTERNS` of `tx-validator.ts`: per pattern, its
flag name and weight (the regex itself is the external matcher; its
per-request test outcome is an input to `validateTransaction`). -/
def SUSPICIOUS_CONTEXT_PATTERNS : List (String × ℕ) := [
  ("URGENCY_PRESSURE", 10),
  ("UNREALISTIC_RETURNS", 20),
  ("SCARCITY_PRESSURE", 10),
  ("TRUST_MANIPULATION", 15),
  ("AUTHORITY_IMPERSONATION", 10),
  ("ADVANCE_FEE_PATTERN", 25),
  ("WALLET_PHISHING", 20),
  ("FAKE_AIRDROP", 15)]

/-- `HIGH_VALUE_THRESHOLDS[token] || HIGH_VALUE_THRESHOLDS.DEFAULT`. -/
def thresholdFor (token : String) : ℚ :=
  if token = "SOL" then 10
  else if token = "USDC" then 1000
  else if token = "USDT" then 1000
  else if token = "BONK" then 100000000
  else if token = "JUP" then 5000
  else 1000

/-- JavaScript truthiness of an optional string (`undefined` and the
empty string are falsy). -/
def truthyStr : Option String → Bool
  | none => false
  | some s => !(s == "")

/-- Whether the source's `!req.context || req.context.trim().length < 5`
condition (push `NO_CONTEXT_PROVIDED`) holds. -/
def txNoContext (context : Option String) : Bool :=
  match context with
  | none => true
  | some s => s == "" || s.trim.length < 5

/-- The destination-based part of the `validateTransaction` score: the
scam-registry hit adds 80, then the known-safe-program deduction
subtracts 20 with `Math.max(0, ...)`.  These are the first two mutations
of `riskScore` in the source and the only non-additive step. -/
def txBaseScore (dest : String) : ℤ :=
  let s1 : ℤ := if (scamLookup dest).isSome then 80 else 0
  if dest ∈ KNOWN_SAFE_PROGRAMS then max 0 (s1 - 20) else s1

/-- The `riskScore` accumulated by `validateTransaction` before the
final `Math.min(100, Math.max(0, riskScore))` clamp.  After the
destination part (`txBaseScore`), the source's remaining mutations are
independent additions, written here as one sum: amount analysis,
context pattern weights (`ctxHits` are the outcomes of the
`SUSPICIOUS_CONTEXT_PATTERNS` regex tests on `req.context`, consumed
only when the context is truthy) and the missing-context penalty. -/
def txRawScore (req : TxRequest) (ctxHits : List Bool) : ℤ :=
  txBaseScore req.destination +
    (let threshold : ℚ := thresholdFor (if req.token == "" then "SOL" else req.token).toUpper
     if req.amount > threshold * 10 then 25
     else if req.amount > threshold then 10
     else 0) +
    (if req.amount ≤ 0 then 5 else 0) +
    (if req.amount > 1 && req.amount == (jsRound req.amount : ℚ) && req.amount ≥ 100
     then 3 else 0) +
    (if truthyStr req.context then
      (((SUSPICIOUS_CONTEXT_PATTERNS.zip ctxHits).filter fun ph => ph.2).map
        fun ph => (ph.1.2 : ℤ)).sum
     else 0) +
    (if txNoContext req.context then 5 else 0)

/-- `validateTransaction` of `tx-validator.ts`.  `destValid` is the
outcome of the external `new PublicKey(req.destination)` format check;
`ctxHits` are the outcomes of the `SUSPICIOUS_CONTEXT_PATTERNS` regex
tests on `req.context` (consumed, as in the source, only when the
context is truthy). -/
def validateTransaction (destValid : Bool) (req : TxRequest) (ctxHits : List Bool) :
    TxValidationResult :=
  if !destValid then
    { safe := false
      riskScore := 100
      flags := ["INVALID_DESTINATION_ADDRESS"]
      recommendation := .block }
  else
    let scamEntry := scamLookup req.destination
    let scamFlags : List String :=
      match scamEntry with
      | some e => ["KNOWN_SCAM: " ++ e.category.str, "SCAM_DETAIL: " ++ e.description]
      | none => []
    let safeProg : Bool := req.destination ∈ KNOWN_SAFE_PROGRAMS
    let safeFlags : List String := if safeProg then ["KNOWN_SAFE_PROGRAM"] else []
    let token : String := (if req.token == "" then "SOL" else req.token).toUpper
    let threshold : ℚ := thresholdFor token
    let amountFlags : List String :=
      if req.amount > threshold * 10 then ["EXTREMELY_HIGH_VALUE"]
      else if req.amount > threshold then ["HIGH_VALUE_TRANSACTION"]
      else []
    let zeroFlags : List String := if req.amount ≤ 0 then ["ZERO_OR_NEGATIVE_AMOUNT"] else []
    let roundAmount : Bool :=
      req.amount > 1 && req.amount == (jsRound req.amount : ℚ) && req.amount ≥ 100
    let roundFlags : List String := if roundAmount then ["ROUND_NUMBER_AMOUNT"] else []
    let hits : List ((String × ℕ) × Bool) := SUSPICIOUS_CONTEXT_PATTERNS.zip ctxHits
    let ctxFlags : List String :=
      if truthyStr req.context then
        (hits.filter fun ph => ph.2).map fun ph => ph.1.1
      else []
    let noCtxFlags : List String :=
      if txNoContext req.context then ["NO_CONTEXT_PROVIDED"] else []
    let finalScore : ℤ := min 100 (max 0 (txRawScore req ctxHits))
    let recommendation : Recommendation :=
      if finalScore ≥ 60 || scamEntry.isSome then .block
      else if finalScore ≥ 30 then .review
      else .proceed
    { safe := finalScore < 30
      riskScore := finalScore
      flags := scamFlags ++ safeFlags ++ amountFlags ++ zeroFlags ++ roundFlags ++
        ctxFlags ++ noCtxFlags
      recommendation := recommendation }

/-! ## Address checker (`src/scanners/address-checker.ts`) -/

/-- The part of the web3.js account info consumed by `checkAddress`. -/
structure AccountInfo where
  lamports : ℚ
  executable : Bool
  deriving Repr

/-- One entry of `getSignaturesForAddress` (only `blockTime` is read;
`null` block times are `none`). -/
structure SigInfo where
  blockTime : Option ℤ
  deriving Repr

/-- The external on-chain collaborator of `checkAddress`: the outcome of
`getAccountInfo` (outer `try`), the outcome of `getSignaturesForAddress`
(inner `try`), and `Date.now()` in milliseconds.  `Except Unit` models a
thrown RPC error. -/
structure ChainEnv where
  accountInfo : Except Unit (Option AccountInfo)
  signatures : Except Unit (List SigInfo)
  nowMs : ℤ
  deriving Repr

/-- `AddressCheckResult` of `address-checker.ts`.  `firstSeenMs` is the
millisecond timestamp rendered as the `firstSeen` ISO string and
`accountAgeDays` the day count rendered as the `accountAge` string;
`checkedAt` is metadata and omitted. -/
structure AddressCheckResult where
  address : String
  safe : Bool
  riskScore : ℤ
  flags : List String
  firstSeenMs : Option ℤ
  txCount : ℕ
  accountAgeDays : Option ℤ
  balance : Option ℚ
  isProgram : Bool
  scamMatch : Option ScamEntry
  deriving Repr

/-- The `severityScores` table of `checkAddress` (lines 77-83).  The
source's `|| 25` fallback is unreachable: `ScamEntry['severity']` is the
closed four-value enum. -/
def severityRisk : Severity → ℤ
  | .critical => 50
  | .high => 35
  | .medium => 20
  | .low => 10

/-- `checkAddress` of `address-checker.ts`.  `validAddr` is the outcome
of the external `new PublicKey(address)` format check; `env` holds the
outcomes of the on-chain queries. -/
def checkAddress (validAddr : Bool) (address : String) (env : ChainEnv) :
    AddressCheckResult :=
  if !validAddr then
    { address := address
      safe := false
      riskScore := 100
      flags := ["INVALID_ADDRESS"]
      firstSeenMs := none
      txCount := 0
      accountAgeDays := none
      balance := none
      isProgram := false
      scamMatch := none }
  else
    let scamMatch := scamLookup address
    let scamFlags : List String :=
      match scamMatch with
      | some e => ["KNOWN_SCAM: " ++ e.category.str, "SCAM_DESCRIPTION: " ++ e.description]
      | none => []
    let r0 : ℤ :=
      match scamMatch with
      | some e => severityRisk e.severity
      | none => 0
    match env.accountInfo with
    | .error _ =>
      -- outer catch: `RPC_ERROR`, no penalty, signature block skipped
      let finalScore : ℤ := min 100 (max 0 r0)
      { address := address
        safe := decide (finalScore < 30) && scamMatch.isNone
        riskScore := finalScore
        flags := scamFlags ++ ["RPC_ERROR"]
        firstSeenMs := none
        txCount := 0
        accountAgeDays := none
        balance := none
        isProgram := false
        scamMatch := scamMatch }
    | .ok info =>
      let balance : Option ℚ := info.map fun ai => ai.lamports / 1000000000
      let isProgram : Bool :=
        match info with
        | some ai => ai.executable
        | none => false
      let acctFlags : List String :=
        match info with
        | none => ["ACCOUNT_NOT_FOUND"]
        | some ai =>
          (if ai.executable then ["IS_PROGRAM"] else []) ++
            (if ai.lamports / 1000000000 > 100 then ["HIGH_BALANCE"] else [])
      let r1 : ℤ := if info.isNone then r0 + 15 else r0
      match env.signatures with
      | .error _ =>
        -- inner catch: `TX_HISTORY_UNAVAILABLE`, no penalty
        let finalScore : ℤ := min 100 (max 0 r1)
        { address := address
          safe := decide (finalScore < 30) && scamMatch.isNone
          riskScore := finalScore
          flags := scamFlags ++ acctFlags ++ ["TX_HISTORY_UNAVAILABLE"]
          firstSeenMs := none
          txCount := 0
          accountAgeDays := none
          balance := balance
          isProgram := isProgram
          scamMatch := scamMatch }
      | .ok sigs =>
        let txCount : ℕ := sigs.length
        -- oldest returned signature; its blockTime must be truthy (non-null, non-zero)
        let oldestBT : Option ℤ :=
          match sigs.getLast? with
          | some sg => match sg.blockTime with
            | some t => if t = 0 then none else some t
            | none => none
          | none => none
        let firstSeenMs : Option ℤ := oldestBT.map fun t => t * 1000
        let accountAgeDays : Option ℤ :=
          oldestBT.map fun t => Int.fdiv (env.nowMs - t * 1000) 86400000
        let ageFlags : List String :=
          match accountAgeDays with
          | some d =>
            if d < 1 then ["VERY_NEW_ACCOUNT"]
            else if d < 7 then ["NEW_ACCOUNT"]
            else if d < 30 then ["RECENT_ACCOUNT"]
            else []
          | none => []
        let r2 : ℤ :=
          match accountAgeDays with
          | some d =>
            if d < 1 then r1 + 20
            else if d < 7 then r1 + 10
            else if d < 30 then r1 + 5
            else r1
          | none => r1
        let histFlags : List String :=
          if txCount = 0 then ["NO_TRANSACTION_HISTORY"]
          else if txCount = 100 then ["HIGH_ACTIVITY"]
          else []
        let r3 : ℤ := if txCount = 0 then r2 + 10 else r2
        let rapid : Bool :=
          if 50 ≤ sigs.length then
            let first : ℤ := ((sigs.getD 0 ⟨none⟩).blockTime).getD 0
            let last : ℤ := ((sigs.getD (min 49 (sigs.length - 1)) ⟨none⟩).blockTime).getD 0
            !(first == 0) && !(last == 0) && decide (first - last < 3600)
          else false
        let rapidFlags : List String := if rapid then ["RAPID_TRANSACTIONS"] else []
        let r4 : ℤ := if rapid then r3 + 15 else r3
        let finalScore : ℤ := min 100 (max 0 r4)
        { address := address
          safe := decide (finalScore < 30) && scamMatch.isNone
          riskScore := finalScore
          flags := scamFlags ++ acctFlags ++ ageFlags ++ histFlags ++ rapidFlags
          firstSeenMs := firstSeenMs
          txCount := txCount
          accountAgeDays := accountAgeDays
          balance := balance
          isProgram := isProgram
          scamMatch := scamMatch }

/-! ## Agent scorer (the `scoreAgent` module) -/

/-- `RISK_PATTERNS` of the agent scorer: per pattern, its flag and its
(negative) impact on the risk dimension.  The regexes are external
matchers; their test outcomes are inputs to `scoreAgent`. -/
def RISK_PATTERNS : List (String × ℤ) := [
  ("PROMISES_GUARANTEED_RETURNS", -15),
  ("ADVANCE_FEE_LANGUAGE", -20),
  ("REQUESTS_ELEVATED_ACCESS", -10),
  ("REFERENCES_PRIVATE_KEYS", -25),
  ("URGENCY_PRESSURE", -10),
  ("TRUST_MANIPULATION", -15),
  ("DYNAMIC_CODE_EXECUTION", -20),
  ("EXFILTRATION_INDICATORS", -30)]

/-- `SECURITY_PATTERNS` of the agent scorer: per pattern, its flag and
its (positive) impact on the security dimension. -/
def SECURITY_PATTERNS : List (String × ℤ) := [
  ("HAS_RATE_LIMITING", 10),
  ("INPUT_VALIDATION", 10),
  ("USES_ENCRYPTION", 8),
  ("SECURITY_AWARE", 5),
  ("SECURITY_HEADERS", 8),
  ("HAS_TESTS", 10),
  ("TYPED_LANGUAGE", 5),
  ("ERROR_HANDLING", 5)]

/-- `AgentProfile` of the agent scorer. -/
structure AgentProfile where
  name : String
  codeUrl : Option String
  walletAddress : Option String
  skills : Option (List String)
  description : Option String
  deriving Repr

/-- Outcomes of the external regex tests performed by `scoreAgent`:
`riskHits`/`secHits` are the `RISK_PATTERNS`/`SECURITY_PATTERNS` tests on
the concatenated profile text, and the remaining booleans are the ad hoc
code-content tests (`/process\.env/`, `/\.env/ && !/\.gitignore/`,
`/TODO|FIXME|HACK/i`, `/console\.log/`). -/
structure AgentEnv where
  riskHits : List Bool
  secHits : List Bool
  usesEnvVars : Bool
  envLeak : Bool
  todoComments : Bool
  consoleLog : Bool
  deriving Repr

/-- The five score dimensions of an `AgentScore`. -/
structure AgentDims where
  security : ℤ
  output : ℤ
  reputation : ℤ
  integration : ℤ
  risk : ℤ
  deriving DecidableEq, Repr

/-- `AgentScore` of the agent scorer (`scoredAt` is metadata and
omitted). -/
structure AgentScore where
  agent : String
  overallScore : ℤ
  grade : String
  dimensions : AgentDims
  flags : List String
  recommendations : List String
  deriving Repr

/-- `gradeFromScore` of the agent scorer. -/
def gradeFromScore (score : ℤ) : String :=
  if score ≥ 95 then "A+"
  else if score ≥ 90 then "A"
  else if score ≥ 85 then "A-"
  else if score ≥ 80 then "B+"
  else if score ≥ 75 then "B"
  else if score ≥ 70 then "B-"
  else if score ≥ 65 then "C+"
  else if score ≥ 60 then "C"
  else if score ≥ 55 then "C-"
  else if score ≥ 50 then "D+"
  else if score ≥ 45 then "D"
  else if score ≥ 40 then "D-"
  else "F"

/-- `String.includes` of JavaScript for a non-empty needle. -/
def strIncludes (s needle : String) : Bool :=
  1 < (s.splitOn needle).length

/-- The `Math.max(0, Math.min(100, x))` clamp applied to every agent
dimension. -/
def clamp100 (x : ℤ) : ℤ := max 0 (min 100 x)

/-- `scoreAgent` of the agent scorer.  `env` carries the external regex
test outcomes (see `AgentEnv`); everything else is computed from the
profile and optional code content as in the source. -/
def scoreAgent (profile : AgentProfile) (codeContent : Option String) (env : AgentEnv) :
    AgentScore :=
  let riskMatched := (RISK_PATTERNS.zip env.riskHits).filter fun ph => ph.2
  let secMatched := (SECURITY_PATTERNS.zip env.secHits).filter fun ph => ph.2
  let riskScore0 : ℤ := 80 + (riskMatched.map fun ph => ph.1.2).sum
  let securityScore0 : ℤ := 50 + (secMatched.map fun ph => ph.1.2).sum
  let codeTruthy : Bool := truthyStr codeContent
  let codeLines : ℕ :=
    match codeContent with
    | some code => (code.splitOn "\n").length
    | none => 0
  let outputScore0 : ℤ :=
    if codeTruthy then
      30 + (if codeLines > 100 then 15 else 0) + (if codeLines > 500 then 15 else 0) +
        (if codeLines > 1000 then 10 else 0) + (if env.todoComments then -5 else 0)
    else 30
  let securityScore1 : ℤ :=
    if codeTruthy then
      securityScore0 + (if env.usesEnvVars then 5 else 0) + (if env.envLeak then -10 else 0)
    else securityScore0
  let codeFlags : List String :=
    if codeTruthy then
      (if env.usesEnvVars then ["USES_ENV_VARS"] else []) ++
        (if env.envLeak then ["POSSIBLE_ENV_LEAK"] else []) ++
        (if env.todoComments then ["HAS_TODO_COMMENTS"] else []) ++
        (if env.consoleLog then ["DEBUG_LOGGING"] else [])
    else []
  let codeRecs : List String :=
    if codeTruthy then
      (if env.envLeak then ["Ensure .env files are in .gitignore"] else []) ++
        (if env.consoleLog then ["Remove console.log statements in production"] else [])
    else []
  let urlTruthy : Bool := truthyStr profile.codeUrl
  let urlGithub : Bool :=
    match profile.codeUrl with
    | some url => strIncludes url "github.com"
    | none => false
  let integrationScore0 : ℤ :=
    30 + (if urlTruthy then 20 + (if urlGithub then 10 else 0) else 0) +
      (if truthyStr profile.walletAddress then 15 else 0) +
      (match profile.skills with
       | some sk => if 0 < sk.length then min ((sk.length : ℤ) * 5) 20 else 0
       | none => 0)
  let repoFlags : List String :=
    (if urlTruthy && urlGithub then ["PUBLIC_REPO"] else []) ++
      (if truthyStr profile.walletAddress then ["HAS_WALLET"] else [])
  let outputScore1 : ℤ :=
    match profile.description with
    | some d =>
      if !(d == "") then
        outputScore0 + (if d.length > 200 then 10 else 0) + (if d.length > 500 then 5 else 0)
      else outputScore0
    | none => outputScore0
  let security : ℤ := clamp100 securityScore1
  let output : ℤ := clamp100 outputScore1
  let reputation : ℤ := clamp100 50
  let integration : ℤ := clamp100 integrationScore0
  let risk : ℤ := clamp100 riskScore0
  let overall : ℤ := jsRound
    ((security : ℚ) * (3 / 10) + (output : ℚ) * (1 / 5) + (reputation : ℚ) * (3 / 20) +
      (integration : ℚ) * (3 / 20) + (risk : ℚ) * (1 / 5))
  let thresholdRecs : List String :=
    (if security < 60 then ["Improve code security practices"] else []) ++
      (if output < 40 then ["Increase verifiable output (public code, demos)"] else []) ++
      (if integration < 40 then ["Improve ecosystem integration (wallet, repo, skills)"] else []) ++
      (if risk < 60 then ["Address identified risk flags"] else [])
  { agent := profile.name
    overallScore := overall
    grade := gradeFromScore overall
    dimensions :=
      { security := security
        output := output
        reputation := reputation
        integration := integration
        risk := risk }
    flags := (riskMatched.map fun ph => ph.1.1) ++ (secMatched.map fun ph => ph.1.1) ++
      codeFlags ++ repoFlags
    recommendations := codeRecs ++ thresholdRecs }

/-! ## Derived definitions used by the statements -/

/-- The total of the heuristic boosts of `scanCode` that apply to a
detection list and entropy condition (each boost is applied by the
source as `Math.min(100, score + boost)`; `scanAggregate_riskScore`
below shows the chain collapses to one clamped sum). -/
def boostSum (ds : List Detection) (entropyCond : Bool) : ℤ :=
  (if 3 ≤ (criticalCategories ds).length then 15 else 0) +
    (if seenHas ds .network_exfil && (seenHas ds .wallet_drain || seenHas ds .crypto_theft)
     then 20 else 0) +
    (if seenHas ds .shell_exec && seenHas ds .data_access then 10 else 0) +
    (if entropyCond then 10 else 0)

/-- Whether some heuristic boost condition of `scanCode` is triggered. -/
def boostTriggered (ds : List Detection) (entropyCond : Bool) : Bool :=
  decide (3 ≤ (criticalCategories ds).length) ||
    (seenHas ds .network_exfil && (seenHas ds .wallet_drain || seenHas ds .crypto_theft)) ||
    (seenHas ds .shell_exec && seenHas ds .data_access) ||
    entropyCond

/-- A detection the `eval(` rule produces on line 1 (used as a concrete
input by several statements). -/
def dEval : Detection :=
  ⟨"\\beval\\s*\\(", .obfuscation, .critical,
    "eval() — executes arbitrary code strings", some 1, "eval(", 90⟩

/-- A detection of the sensitive-data-over-network rule on line 1. -/
def dSend : Detection :=
  ⟨".send-pattern", .network_exfil, .critical,
    "Sending sensitive data over network connection", some 1, ".send(privateKey", 85⟩

/-- A detection of the mnemonic/seed-phrase rule on line 1. -/
def dMnemonic : Detection :=
  ⟨"mnemonic-pattern", .wallet_drain, .critical,
    "Accesses mnemonic/seed phrase — wallet recovery theft", some 1, "mnemonic", 95⟩

/-! ## Lemmas about the code-scanner aggregation -/

theorem rawScoreAux_append (l₁ l₂ : List Detection) (seen : List Category) :
    rawScoreAux (l₁ ++ l₂) seen = rawScoreAux l₁ seen + rawScoreAux l₂ (seenAux l₁ seen) := by
  induction l₁ generalizing seen with
  | nil => simp [rawScoreAux, seenAux]
  | cons d rest ih =>
    simp only [List.cons_append, rawScoreAux, seenAux]
    cases hfr : findRule d <;> simp [hfr, ih, add_assoc]

theorem mem_seenAux {c : Category} (l : List Detection) (seen : List Category) :
    c ∈ seenAux l seen ↔ c ∈ seen ∨ ∃ d ∈ l, (findRule d).isSome ∧ d.category = c := by
  induction l generalizing seen with
  | nil => simp [seenAux]
  | cons d rest ih =>
    simp only [seenAux]
    cases hfr : findRule d with
    | none => rw [ih]; simp [hfr]
    | some r => rw [ih]; simp [hfr, List.mem_cons]; tauto

theorem rawScoreAux_congr (l : List Detection) (s s' : List Category)
    (h : ∀ d ∈ l, (d.category ∈ s ↔ d.category ∈ s')) :
    rawScoreAux l s = rawScoreAux l s' := by
  induction l generalizing s s' with
  | nil => rfl
  | cons d rest ih =>
    simp only [rawScoreAux]
    cases hfr : findRule d with
    | none => exact ih _ _ fun d' hd' => h d' (List.mem_cons_of_mem _ hd')
    | some r =>
      dsimp only
      have hd := h d (List.mem_cons_self _ _)
      rw [if_congr hd rfl rfl]
      refine congrArg _ (ih _ _ fun d' hd' => ?_)
      simp only [List.mem_cons]
      exact or_congr Iff.rfl (h d' (List.mem_cons_of_mem _ hd'))

theorem rawScoreAux_nonneg (l : List Detection) (s : List Category) :
    0 ≤ rawScoreAux l s := by
  induction l generalizing s with
  | nil => simp [rawScoreAux]
  | cons d rest ih =>
    simp only [rawScoreAux]
    cases hfr : findRule d with
    | none => exact ih _
    | some r =>
      refine add_nonneg ?_ (ih _)
      split_ifs <;> positivity

theorem rawScoreAux_insert (l₁ l₂ : List Detection) (d : Detection) (r : PatternRule)
    (seen : List Category) (hfr : findRule d = some r)
    (hseen : d.category ∉ seenAux l₁ seen) (hl₂ : ∀ d' ∈ l₂, d'.category ≠ d.category) :
    rawScoreAux (l₁ ++ d :: l₂) seen = rawScoreAux (l₁ ++ l₂) seen + r.weight := by
  rw [rawScoreAux_append, rawScoreAux_append]
  simp only [rawScoreAux, hfr]
  rw [if_neg hseen]
  have hcg : rawScoreAux l₂ (d.category :: seenAux l₁ seen) =
      rawScoreAux l₂ (seenAux l₁ seen) := by
    refine rawScoreAux_congr _ _ _ fun d' hd' => ?_
    simp only [List.mem_cons]
    have hne := hl₂ d' hd'
    constructor
    · rintro (h | h)
      · exact absurd h hne
      · exact h
    · exact Or.inr
  rw [hcg]; ring

theorem seenHas_eq_true (ds : List Detection) (c : Category) :
    seenHas ds c = true ↔ ∃ d ∈ ds, (findRule d).isSome ∧ d.category = c := by
  simp only [seenHas, decide_eq_true_eq]
  rw [mem_seenAux]
  simp

theorem seenHas_insert_mono (l₁ l₂ : List Detection) (d : Detection) (c : Category)
    (h : seenHas (l₁ ++ l₂) c = true) : seenHas (l₁ ++ d :: l₂) c = true := by
  rw [seenHas_eq_true] at h ⊢
  obtain ⟨d', hd', hp⟩ := h
  refine ⟨d', ?_, hp⟩
  simp only [List.mem_append, List.mem_cons] at hd' ⊢
  tauto

theorem critLen_insert_mono (l₁ l₂ : List Detection) (d : Detection) :
    (criticalCategories (l₁ ++ l₂)).length ≤ (criticalCategories (l₁ ++ d :: l₂)).length := by
  have hsub : List.Sublist (l₁ ++ l₂) (l₁ ++ d :: l₂) :=
    List.Sublist.append_left (List.sublist_cons_self _ _) l₁
  have hmap := (hsub.filter fun x => x.severity == Severity.critical).map Detection.category
  simp only [criticalCategories, ← List.card_toFinset]
  exact Finset.card_le_card fun x hx => List.mem_toFinset.2 (hmap.subset (List.mem_toFinset.1 hx))

theorem jsRound_add_int (q : ℚ) (n : ℤ) : jsRound (q + n) = jsRound q + n := by
  rw [jsRound, jsRound, add_right_comm]
  exact Int.floor_add_int _ _

theorem jsRound_nonneg (q : ℚ) (h : 0 ≤ q) : 0 ≤ jsRound q := by
  rw [jsRound]
  refine Int.le_floor.2 ?_
  push_cast
  linarith

theorem scanAggregate_riskScore (ds : List Detection) (eb : Bool) :
    (scanAggregate ds eb).riskScore = min 100 (jsRound (rawScore ds) + boostSum ds eb) := by
  simp only [scanAggregate, boostSum]
  split_ifs <;> omega

theorem boostSum_nonneg (ds : List Detection) (eb : Bool) : 0 ≤ boostSum ds eb := by
  simp only [boostSum]
  split_ifs <;> omega

theorem critical_rule_weight (r : PatternRule) (hr : r ∈ PATTERNS)
    (hc : r.severity = .critical) : 20 ≤ r.weight := by
  fin_cases hr <;> simp_all

/-- The rule matched by `findRule dEval` (the `eval(` pattern). -/
def rEval : PatternRule :=
  ⟨.obfuscation, .critical, "eval() — executes arbitrary code strings", 90, 25⟩

theorem findRule_dEval : findRule dEval = some rEval := by decide

theorem rawScore_append_single (p : List Detection) (d : Detection) (r : PatternRule)
    (hfr : findRule d = some r) :
    rawScore (p ++ [d]) =
      rawScore p + (if seenHas p d.category then (3 * r.weight : ℚ) / 10 else (r.weight : ℚ)) := by
  rw [rawScore, rawScore, rawScoreAux_append]
  simp only [rawScoreAux, hfr]
  have hiff : (d.category ∈ seenAux p []) ↔ (seenHas p d.category = true) := by
    simp [seenHas]
  rw [if_congr hiff rfl rfl]
  ring

theorem mem_dedupAux_not_seen (x : Detection) :
    ∀ (ds : List Detection) (seen : List (Category × String × Option ℕ)),
      x ∈ dedupAux ds seen → dedupKey x ∉ seen := by
  intro ds
  induction ds with
  | nil => intro seen h; simp [dedupAux] at h
  | cons e rest ih =>
    intro seen h
    simp only [dedupAux] at h
    by_cases he : dedupKey e ∈ seen
    · rw [if_pos he] at h
      exact ih _ h
    · rw [if_neg he] at h
      rcases List.mem_cons.1 h with rfl | h
      · exact he
      · intro hx
        exact ih _ h (List.mem_cons_of_mem _ hx)

theorem dedupAux_pairwise :
    ∀ (ds : List Detection) (seen : List (Category × String × Option ℕ)),
      (dedupAux ds seen).Pairwise fun a b => dedupKey a ≠ dedupKey b := by
  intro ds
  induction ds with
  | nil => intro seen; simp [dedupAux]
  | cons e rest ih =>
    intro seen
    simp only [dedupAux]
    by_cases he : dedupKey e ∈ seen
    · rw [if_pos he]; exact ih _
    · rw [if_neg he]
      refine List.Pairwise.cons (fun b hb => ?_) (ih _)
      have := mem_dedupAux_not_seen b rest _ hb
      intro hkey
      exact this (hkey ▸ List.mem_cons_self _ _)

theorem dedupAux_append_dup (d : Detection) :
    ∀ (ds : List Detection) (seen : List (Category × String × Option ℕ)),
      (dedupKey d ∈ seen ∨ ∃ d' ∈ ds, dedupKey d' = dedupKey d) →
      dedupAux (ds ++ [d]) seen = dedupAux ds seen := by
  intro ds
  induction ds with
  | nil =>
    intro seen h
    have hm : dedupKey d ∈ seen := by
      rcases h with h | ⟨d', hd', _⟩
      · exact h
      · exact absurd hd' (List.not_mem_nil d')
    simp [dedupAux, hm]
  | cons e rest ih =>
    intro seen h
    simp only [List.cons_append, dedupAux]
    by_cases he : dedupKey e ∈ seen
    · rw [if_pos he, if_pos he]
      refine ih _ ?_
      rcases h with h | ⟨d', hd', hk⟩
      · exact Or.inl h
      · rcases List.mem_cons.1 hd' with rfl | hd'
        · exact Or.inl (hk ▸ he)
        · exact Or.inr ⟨d', hd', hk⟩
    · rw [if_neg he, if_neg he]
      congr 1
      refine ih _ ?_
      rcases h with h | ⟨d', hd', hk⟩
      · exact Or.inl (List.mem_cons_of_mem _ h)
      · rcases List.mem_cons.1 hd' with rfl | hd'
        · exact Or.inl (hk ▸ List.mem_cons_self _ _)
        · exact Or.inr ⟨d', hd', hk⟩

/-- C2: in `scanCode`'s weighted sum, detections are iterated in
discovery order; a detection whose rule is found contributes its full
rule weight if no earlier detection (with a found rule) has its category,
and exactly 30% of its rule weight otherwise. -/
theorem scanCode_diminishing_returns (p : List Detection) (d : Detection) (r : PatternRule)
    (hfr : findRule d = some r) :
    rawScore (p ++ [d]) =
      rawScore p + (if seenHas p d.category then (3 * r.weight : ℚ) / 10 else (r.weight : ℚ)) ∧
    (seenHas p d.category = true ↔ ∃ d' ∈ p, (findRule d').isSome ∧ d'.category = d.category) :=
  ⟨rawScore_append_single p d r hfr, seenHas_eq_true p d.category⟩

/-- Witness for C2 at `p = [dEval]`, `d = dEval`. -/
theorem scanCode_diminishing_returns_witness :
    findRule dEval = some rEval ∧
    (rawScore ([dEval] ++ [dEval]) =
        rawScore [dEval] +
          (if seenHas [dEval] dEval.category then (3 * rEval.weight : ℚ) / 10
           else (rEval.weight : ℚ)) ∧
      (seenHas [dEval] dEval.category = true ↔
        ∃ d' ∈ [dEval], (findRule d').isSome ∧ d'.category = dEval.category)) :=
  ⟨by decide, scanCode_diminishing_returns [dEval] dEval rEval (by decide)⟩

/-- C1 counterexample: in `scanCode` the weighted sum runs over the raw
detection list and deduplication is applied only to the returned list,
so a second detection with the identical `(category, description, line)`
triple raises the risk score from 25 to 33 — it does not contribute
nothing. -/
theorem scanCode_dedup_before_sum_cex :
    (scanAggregate [dEval] false).riskScore = 25 ∧
    (scanAggregate [dEval, dEval] false).riskScore = 33 ∧
    deduplicateDetections [dEval, dEval] = [dEval] := by
  refine ⟨?_, ?_, by decide⟩
  · rw [scanAggregate_riskScore]
    have hraw : rawScore [dEval] = 25 := by
      simp only [rawScore, rawScoreAux, seenAux, findRule_dEval]
      norm_num [rEval]
    have hboost : boostSum [dEval] false = 0 := by decide
    rw [hraw, hboost]
    norm_num [jsRound]
  · rw [scanAggregate_riskScore]
    have hraw : rawScore [dEval, dEval] = 65 / 2 := by
      simp only [rawScore, rawScoreAux, seenAux, findRule_dEval]
      norm_num [rEval, dEval]
    have hboost : boostSum [dEval, dEval] false = 0 := by decide
    rw [hraw, hboost]
    norm_num [jsRound]

/-- C1 amended: deduplication by `(category, description, line)` is
applied only to the `detections` list included in the result, after the
weighted sum; a detection duplicating a triple already present in the
list still contributes 30% of its rule weight to the raw score (while
the returned detection list is unchanged). -/
theorem scanCode_dup_contributes (ds : List Detection) (d : Detection) (r : PatternRule)
    (hfr : findRule d = some r) (hdup : ∃ d' ∈ ds, dedupKey d' = dedupKey d) :
    rawScore (ds ++ [d]) = rawScore ds + (3 * r.weight : ℚ) / 10 ∧
    deduplicateDetections (ds ++ [d]) = deduplicateDetections ds := by
  obtain ⟨d', hd', hk⟩ := hdup
  have hcat : d'.category = d.category := congrArg Prod.fst hk
  have hdesc : d'.description = d.description := congrArg (fun p => p.2.1) hk
  have hfr' : findRule d' = some r := by
    rw [findRule, hcat, hdesc, ← findRule, hfr]
  constructor
  · rw [rawScore_append_single ds d r hfr]
    have hseen : seenHas ds d.category = true :=
      (seenHas_eq_true ds d.category).2 ⟨d', hd', by simp [hfr'], hcat⟩
    rw [if_pos hseen]
  · exact dedupAux_append_dup d ds [] (Or.inr ⟨d', hd', hk⟩)

/-- Witness for the amended C1 at `ds = [dEval]`, `d = dEval`. -/
theorem scanCode_dup_contributes_witness :
    findRule dEval = some rEval ∧ (∃ d' ∈ [dEval], dedupKey d' = dedupKey dEval) ∧
    (rawScore ([dEval] ++ [dEval]) = rawScore [dEval] + (3 * rEval.weight : ℚ) / 10 ∧
      deduplicateDetections ([dEval] ++ [dEval]) = deduplicateDetections [dEval]) :=
  ⟨by decide, ⟨dEval, by decide, by decide⟩,
    scanCode_dup_contributes [dEval] dEval rEval (by decide) ⟨dEval, by decide, by decide⟩⟩

/-- C8: the detection list returned by `scanCode` contains no two
entries sharing the same `(category, description, line)` triple. -/
theorem scanCode_detections_dedup (ds : List Detection) (eb : Bool) :
    ((scanAggregate ds eb).detections).Pairwise fun a b => dedupKey a ≠ dedupKey b := by
  have h : (scanAggregate ds eb).detections = deduplicateDetections ds := rfl
  rw [h]
  exact dedupAux_pairwise ds []

/-- C6: adding a critical-severity detection of a rule-backed category
not previously present never lowers the `scanCode` risk score, whatever
the insertion position and however the entropy condition changes (the
new critical category contributes at least weight 20, which dominates
the at most 10 points the entropy boost can lose). -/
theorem scanCode_critical_monotone (l₁ l₂ : List Detection) (d : Detection) (r : PatternRule)
    (eb eb' : Bool) (hfr : findRule d = some r) (hsev : d.severity = .critical)
    (hrsev : r.severity = .critical)
    (hfresh : ∀ d' ∈ l₁ ++ l₂, d'.category ≠ d.category)
    (hboost : boostTriggered (l₁ ++ l₂) eb = true) :
    (scanAggregate (l₁ ++ l₂) eb).riskScore ≤ (scanAggregate (l₁ ++ d :: l₂) eb').riskScore := by
  rw [scanAggregate_riskScore, scanAggregate_riskScore]
  have hrmem : r ∈ PATTERNS := List.mem_of_find?_eq_some hfr
  have hw : 20 ≤ r.weight := critical_rule_weight r hrmem hrsev
  have hraw : rawScore (l₁ ++ d :: l₂) = rawScore (l₁ ++ l₂) + (r.weight : ℚ) := by
    rw [rawScore, rawScore]
    refine rawScoreAux_insert l₁ l₂ d r [] hfr ?_ fun d' hd' =>
      hfresh d' (List.mem_append_right _ hd')
    intro hmem
    rcases (mem_seenAux l₁ []).1 hmem with h | ⟨d', hd', _, hcat⟩
    · exact absurd h (List.not_mem_nil _)
    · exact hfresh d' (List.mem_append_left _ hd') hcat
  have hX : jsRound (rawScore (l₁ ++ d :: l₂)) =
      jsRound (rawScore (l₁ ++ l₂)) + (r.weight : ℤ) := by
    rw [hraw, show ((r.weight : ℕ) : ℚ) = (((r.weight : ℕ) : ℤ) : ℚ) by push_cast; ring]
    exact jsRound_add_int _ _
  rw [hX]
  simp only [boostSum]
  have hmono : ∀ c, seenHas (l₁ ++ l₂) c = true → seenHas (l₁ ++ d :: l₂) c = true :=
    seenHas_insert_mono l₁ l₂ d
  have hb1 : (if 3 ≤ (criticalCategories (l₁ ++ l₂)).length then (15 : ℤ) else 0) ≤
      (if 3 ≤ (criticalCategories (l₁ ++ d :: l₂)).length then (15 : ℤ) else 0) := by
    have hm := critLen_insert_mono l₁ l₂ d
    split_ifs <;> omega
  have hb2 : (if seenHas (l₁ ++ l₂) .network_exfil &&
        (seenHas (l₁ ++ l₂) .wallet_drain || seenHas (l₁ ++ l₂) .crypto_theft)
      then (20 : ℤ) else 0) ≤
      (if seenHas (l₁ ++ d :: l₂) .network_exfil &&
        (seenHas (l₁ ++ d :: l₂) .wallet_drain || seenHas (l₁ ++ d :: l₂) .crypto_theft)
      then (20 : ℤ) else 0) := by
    split_ifs with h1 h2
    · omega
    · exfalso
      simp only [Bool.and_eq_true, Bool.or_eq_true] at h1
      refine h2 ?_
      simp only [Bool.and_eq_true, Bool.or_eq_true]
      exact ⟨hmono _ h1.1, h1.2.elim (fun h => Or.inl (hmono _ h)) fun h => Or.inr (hmono _ h)⟩
    · omega
    · omega
  have hb3 : (if seenHas (l₁ ++ l₂) .shell_exec && seenHas (l₁ ++ l₂) .data_access
      then (10 : ℤ) else 0) ≤
      (if seenHas (l₁ ++ d :: l₂) .shell_exec && seenHas (l₁ ++ d :: l₂) .data_access
      then (10 : ℤ) else 0) := by
    split_ifs with h1 h2
    · omega
    · exfalso
      simp only [Bool.and_eq_true] at h1
      refine h2 ?_
      simp only [Bool.and_eq_true]
      exact ⟨hmono _ h1.1, hmono _ h1.2⟩
    · omega
    · omega
  have hb4 : (if eb then (10 : ℤ) else 0) ≤ 10 := by split_ifs <;> omega
  have hb4' : (0 : ℤ) ≤ (if eb' then (10 : ℤ) else 0) := by split_ifs <;> omega
  omega

/-- Witness for C6: two detections triggering the network+wallet combo
boost, extended with the critical `eval(` detection of the fresh
`obfuscation` category. -/
theorem scanCode_critical_monotone_witness :
    findRule dEval = some rEval ∧ dEval.severity = .critical ∧ rEval.severity = .critical ∧
    (∀ d' ∈ [dSend, dMnemonic] ++ [], d'.category ≠ dEval.category) ∧
    boostTriggered ([dSend, dMnemonic] ++ []) false = true ∧
    (scanAggregate ([dSend, dMnemonic] ++ []) false).riskScore ≤
      (scanAggregate ([dSend, dMnemonic] ++ dEval :: []) true).riskScore :=
  ⟨by decide, by decide, by decide, by decide, by decide,
    scanCode_critical_monotone [dSend, dMnemonic] [] dEval rEval false true (by decide)
      (by decide) (by decide) (by decide) (by decide)⟩

theorem ctxWeights_nonneg (l : List ((String × ℕ) × Bool)) :
    0 ≤ ((l.filter fun ph => ph.2).map fun ph => (ph.1.2 : ℤ)).sum := by
  refine List.sum_nonneg fun x hx => ?_
  obtain ⟨ph, _, rfl⟩ := List.mem_map.1 hx
  positivity

theorem tx_scam_score (req : TxRequest) (ctx : List Bool)
    (h : (scamLookup req.destination).isSome = true) :
    60 ≤ txRawScore req ctx := by
  have hs := ctxWeights_nonneg (SUSPICIOUS_CONTEXT_PATTERNS.zip ctx)
  have hbase : 60 ≤ txBaseScore req.destination := by
    simp only [txBaseScore, h, if_true]
    split_ifs <;> omega
  simp only [txRawScore]
  split_ifs <;> omega

theorem tx_riskScore_eq (req : TxRequest) (ctx : List Bool) :
    (validateTransaction true req ctx).riskScore = min 100 (max 0 (txRawScore req ctx)) := rfl

theorem tx_safe_eq (req : TxRequest) (ctx : List Bool) :
    (validateTransaction true req ctx).safe =
      decide (min 100 (max 0 (txRawScore req ctx)) < 30) := rfl

theorem tx_rec_eq (req : TxRequest) (ctx : List Bool) :
    (validateTransaction true req ctx).recommendation =
      (if (decide (min 100 (max 0 (txRawScore req ctx)) ≥ 60) ||
            (scamLookup req.destination).isSome) = true
       then Recommendation.block
       else if min 100 (max 0 (txRawScore req ctx)) ≥ 30 then .review else .proceed) := rfl

/-- C3: for a well-formed destination, `validateTransaction` recommends
`block` exactly when the final score is ≥ 60 or the destination is in
the scam registry (a registry hit forces the score to at least 60, hence
`block`), `review` exactly when the final score is in 30–59, and
`proceed` otherwise (exactly when the final score is below 30). -/
theorem validateTransaction_recommendation (req : TxRequest) (ctx : List Bool) :
    ((validateTransaction true req ctx).recommendation = .block ↔
      (60 ≤ (validateTransaction true req ctx).riskScore ∨
        (scamLookup req.destination).isSome = true)) ∧
    ((validateTransaction true req ctx).recommendation = .review ↔
      (30 ≤ (validateTransaction true req ctx).riskScore ∧
        (validateTransaction true req ctx).riskScore < 60)) ∧
    ((validateTransaction true req ctx).recommendation = .proceed ↔
      (validateTransaction true req ctx).riskScore < 30) := by
  rw [tx_rec_eq, tx_riskScore_eq]
  have hb : (scamLookup req.destination).isSome = true → 60 ≤ min 100 (max 0 (txRawScore req ctx)) := by
    intro h
    have := tx_scam_score req ctx h
    omega
  by_cases h1 : (decide (min 100 (max 0 (txRawScore req ctx)) ≥ 60) ||
      (scamLookup req.destination).isSome) = true
  · rw [if_pos h1]
    simp only [Bool.or_eq_true, decide_eq_true_iff] at h1
    have h60 : 60 ≤ min 100 (max 0 (txRawScore req ctx)) := h1.elim id hb
    refine ⟨?_, ?_, ?_⟩
    · simp only [show Recommendation.block = Recommendation.block ↔ True by simp, true_iff]
      exact h1
    · simp only [show Recommendation.block = Recommendation.review ↔ False by simp, false_iff]
      omega
    · simp only [show Recommendation.block = Recommendation.proceed ↔ False by simp, false_iff]
      omega
  · rw [if_neg h1]
    simp only [Bool.or_eq_true, decide_eq_true_iff, not_or] at h1
    obtain ⟨hlt60, hscam⟩ := h1
    by_cases h2 : min 100 (max 0 (txRawScore req ctx)) ≥ 30
    · rw [if_pos h2]
      refine ⟨?_, ?_, ?_⟩
      · simp only [show Recommendation.review = Recommendation.block ↔ False by simp,
          false_iff]
        rintro (h | h)
        · exact hlt60 h
        · exact hscam h
      · simp only [show Recommendation.review = Recommendation.review ↔ True by simp,
          true_iff]
        omega
      · simp only [show Recommendation.review = Recommendation.proceed ↔ False by simp,
          false_iff]
        omega
    · rw [if_neg h2]
      refine ⟨?_, ?_, ?_⟩
      · simp only [show Recommendation.proceed = Recommendation.block ↔ False by simp,
          false_iff]
        rintro (h | h)
        · exact hlt60 h
        · exact hscam h
      · simp only [show Recommendation.proceed = Recommendation.review ↔ False by simp,
          false_iff]
        omega
      · simp only [show Recommendation.proceed = Recommendation.proceed ↔ True by simp,
          true_iff]
        omega

/-- C9: for every request (valid destination or not), the transaction
validator recommends `proceed` exactly when it reports `safe`; and for a
valid destination a final score below 30 forces the destination to have
no scam-registry match (a hit adds 80 and the only deduction is −20). -/
theorem validateTransaction_proceed_iff_safe (v : Bool) (req : TxRequest) (ctx : List Bool) :
    ((validateTransaction v req ctx).recommendation = .proceed ↔
      (validateTransaction v req ctx).safe = true) ∧
    (v = true → (validateTransaction v req ctx).riskScore < 30 →
      scamLookup req.destination = none) := by
  cases v
  · refine ⟨?_, fun h => absurd h (by simp)⟩
    constructor
    · intro h
      exact absurd h (by simp [validateTransaction])
    · intro h
      exact absurd h (by simp [validateTransaction])
  · have hb : (scamLookup req.destination).isSome = true →
        60 ≤ min 100 (max 0 (txRawScore req ctx)) := by
      intro h
      have := tx_scam_score req ctx h
      omega
    refine ⟨?_, ?_⟩
    · rw [tx_rec_eq, tx_safe_eq]
      by_cases h1 : (decide (min 100 (max 0 (txRawScore req ctx)) ≥ 60) ||
          (scamLookup req.destination).isSome) = true
      · rw [if_pos h1]
        simp only [Bool.or_eq_true, decide_eq_true_iff] at h1
        have h60 : 60 ≤ min 100 (max 0 (txRawScore req ctx)) := h1.elim id hb
        simp only [show Recommendation.block = Recommendation.proceed ↔ False by simp,
          decide_eq_true_iff, false_iff]
        omega
      · rw [if_neg h1]
        simp only [Bool.or_eq_true, decide_eq_true_iff, not_or] at h1
        by_cases h2 : min 100 (max 0 (txRawScore req ctx)) ≥ 30
        · rw [if_pos h2]
          simp only [show Recommendation.review = Recommendation.proceed ↔ False by simp,
            decide_eq_true_iff, false_iff]
          omega
        · rw [if_neg h2]
          simp only [show Recommendation.proceed = Recommendation.proceed ↔ True by simp,
            decide_eq_true_iff, true_iff]
          omega
    · intro _ hlt
      rw [tx_riskScore_eq] at hlt
      by_contra hne
      have hsome : (scamLookup req.destination).isSome = true := by
        rcases hmatch : scamLookup req.destination with _ | e
        · exact absurd hmatch hne
        · simp
      have := tx_scam_score req ctx hsome
      omega

/-- C4: for a well-formed address, `checkAddress` reports `safe = true`
exactly when the final risk score is below 30 and the address has no
scam-registry match; in particular a registry hit forces `safe = false`
whatever the numeric score. -/
theorem checkAddress_safe_iff (address : String) (env : ChainEnv) :
    (checkAddress true address env).safe = true ↔
      ((checkAddress true address env).riskScore < 30 ∧
        (checkAddress true address env).scamMatch = none) := by
  rcases env with ⟨ai, sigs, now⟩
  cases ai with
  | error e =>
    simp [checkAddress, Bool.and_eq_true, decide_eq_true_iff, Option.isNone_iff_eq_none]
  | ok info =>
    cases sigs with
    | error e =>
      simp [checkAddress, Bool.and_eq_true, decide_eq_true_iff, Option.isNone_iff_eq_none]
    | ok sigs =>
      simp [checkAddress, Bool.and_eq_true, decide_eq_true_iff, Option.isNone_iff_eq_none]

/-- C7: on a malformed address `checkAddress` short-circuits to the
fixed result — risk 100, the single flag `INVALID_ADDRESS`, all on-chain
fields at their empty defaults and no registry match — independently of
whatever the on-chain environment would have answered (no on-chain or
registry lookup is consulted). -/
theorem checkAddress_invalid (address : String) (env env' : ChainEnv) :
    checkAddress false address env =
      { address := address
        safe := false
        riskScore := 100
        flags := ["INVALID_ADDRESS"]
        firstSeenMs := none
        txCount := 0
        accountAgeDays := none
        balance := none
        isProgram := false
        scamMatch := none } ∧
    checkAddress false address env = checkAddress false address env' :=
  ⟨rfl, rfl⟩

/-- C10: the reputation dimension of every `scoreAgent` result is
exactly 50 — it is seeded at 50, never adjusted, and clamping leaves it
unchanged. -/
theorem scoreAgent_reputation_const (p : AgentProfile) (c : Option String) (env : AgentEnv) :
    (scoreAgent p c env).dimensions.reputation = 50 := rfl

theorem jsRound_le_hundred (q : ℚ) (h : q ≤ 100) : jsRound q ≤ 100 := by
  rw [jsRound]
  calc ⌊q + 1/2⌋ ≤ ⌊(201 / 2 : ℚ)⌋ := Int.floor_le_floor (by linarith)
  _ = 100 := by norm_num

theorem clamp100_bounds (x : ℤ) : 0 ≤ clamp100 x ∧ clamp100 x ≤ 100 := by
  unfold clamp100
  omega

theorem overall_blend_bounds (s o r i x : ℤ)
    (hs : 0 ≤ s ∧ s ≤ 100) (ho : 0 ≤ o ∧ o ≤ 100) (hr : 0 ≤ r ∧ r ≤ 100)
    (hi : 0 ≤ i ∧ i ≤ 100) (hx : 0 ≤ x ∧ x ≤ 100) :
    0 ≤ jsRound ((s : ℚ) * (3 / 10) + (o : ℚ) * (1 / 5) + (r : ℚ) * (3 / 20) +
        (i : ℚ) * (3 / 20) + (x : ℚ) * (1 / 5)) ∧
    jsRound ((s : ℚ) * (3 / 10) + (o : ℚ) * (1 / 5) + (r : ℚ) * (3 / 20) +
        (i : ℚ) * (3 / 20) + (x : ℚ) * (1 / 5)) ≤ 100 := by
  have hs' : (0 : ℚ) ≤ s ∧ (s : ℚ) ≤ 100 := ⟨by exact_mod_cast hs.1, by exact_mod_cast hs.2⟩
  have ho' : (0 : ℚ) ≤ o ∧ (o : ℚ) ≤ 100 := ⟨by exact_mod_cast ho.1, by exact_mod_cast ho.2⟩
  have hr' : (0 : ℚ) ≤ r ∧ (r : ℚ) ≤ 100 := ⟨by exact_mod_cast hr.1, by exact_mod_cast hr.2⟩
  have hi' : (0 : ℚ) ≤ i ∧ (i : ℚ) ≤ 100 := ⟨by exact_mod_cast hi.1, by exact_mod_cast hi.2⟩
  have hx' : (0 : ℚ) ≤ x ∧ (x : ℚ) ≤ 100 := ⟨by exact_mod_cast hx.1, by exact_mod_cast hx.2⟩
  constructor
  · refine jsRound_nonneg _ ?_
    have := hs'.1
    have := ho'.1
    have := hr'.1
    have := hi'.1
    have := hx'.1
    linarith
  · refine jsRound_le_hundred _ ?_
    have := hs'.2
    have := ho'.2
    have := hr'.2
    have := hi'.2
    have := hx'.2
    linarith

theorem scoreAgent_bounds (p : AgentProfile) (c : Option String) (env : AgentEnv) :
    (0 ≤ (scoreAgent p c env).dimensions.security ∧
      (scoreAgent p c env).dimensions.security ≤ 100) ∧
    (0 ≤ (scoreAgent p c env).dimensions.output ∧
      (scoreAgent p c env).dimensions.output ≤ 100) ∧
    (0 ≤ (scoreAgent p c env).dimensions.reputation ∧
      (scoreAgent p c env).dimensions.reputation ≤ 100) ∧
    (0 ≤ (scoreAgent p c env).dimensions.integration ∧
      (scoreAgent p c env).dimensions.integration ≤ 100) ∧
    (0 ≤ (scoreAgent p c env).dimensions.risk ∧
      (scoreAgent p c env).dimensions.risk ≤ 100) ∧
    (0 ≤ (scoreAgent p c env).overallScore ∧ (scoreAgent p c env).overallScore ≤ 100) := by
  refine ⟨?_, ?_, ?_, ?_, ?_, ?_⟩ <;> dsimp only [scoreAgent]
  · exact clamp100_bounds _
  · exact clamp100_bounds _
  · exact clamp100_bounds _
  · exact clamp100_bounds _
  · exact clamp100_bounds _
  · exact overall_blend_bounds _ _ _ _ _ (clamp100_bounds _) (clamp100_bounds _)
      (clamp100_bounds _) (clamp100_bounds _) (clamp100_bounds _)

/-- C5: every numeric score any of the four models returns — the
`scanCode` risk score, the transaction-validation risk score, the
address-check risk score, and all five agent dimensions plus the
overall agent score — lies in `[0, 100]`, for every input (valid or
not, whatever the external environment answered). -/
theorem all_scores_in_range :
    (∀ (ds : List Detection) (eb : Bool),
      0 ≤ (scanAggregate ds eb).riskScore ∧ (scanAggregate ds eb).riskScore ≤ 100) ∧
    (∀ (v : Bool) (req : TxRequest) (ctx : List Bool),
      0 ≤ (validateTransaction v req ctx).riskScore ∧
        (validateTransaction v req ctx).riskScore ≤ 100) ∧
    (∀ (v : Bool) (a : String) (env : ChainEnv),
      0 ≤ (checkAddress v a env).riskScore ∧ (checkAddress v a env).riskScore ≤ 100) ∧
    (∀ (p : AgentProfile) (c : Option String) (env : AgentEnv),
      (0 ≤ (scoreAgent p c env).dimensions.security ∧
        (scoreAgent p c env).dimensions.security ≤ 100) ∧
      (0 ≤ (scoreAgent p c env).dimensions.output ∧
        (scoreAgent p c env).dimensions.output ≤ 100) ∧
      (0 ≤ (scoreAgent p c env).dimensions.reputation ∧
        (scoreAgent p c env).dimensions.reputation ≤ 100) ∧
      (0 ≤ (scoreAgent p c env).dimensions.integration ∧
        (scoreAgent p c env).dimensions.integration ≤ 100) ∧
      (0 ≤ (scoreAgent p c env).dimensions.risk ∧
        (scoreAgent p c env).dimensions.risk ≤ 100) ∧
      (0 ≤ (scoreAgent p c env).overallScore ∧ (scoreAgent p c env).overallScore ≤ 100)) := by
  refine ⟨?_, ?_, ?_, scoreAgent_bounds⟩
  · intro ds eb
    rw [scanAggregate_riskScore]
    have h1 : 0 ≤ jsRound (rawScore ds) := jsRound_nonneg _ (rawScoreAux_nonneg _ _)
    have h2 := boostSum_nonneg ds eb
    omega
  · intro v req ctx
    cases v
    · simp [validateTransaction]
    · rw [tx_riskScore_eq]
      omega
  · intro v a env
    cases v
    · simp [checkAddress]
    · rcases env with ⟨ai, sigs, now⟩
      cases ai with
      | error e => simp [checkAddress]
      | ok info =>
        cases sigs with
        | error e => simp [checkAddress]
        | ok sigs => simp [checkAddress]
